import Mathlib

/-!
A shallow embedding of `src/agent/mincore.py` (the minimal inner core of an
agent): the call extractor `_extract_function_calls`, the schema deriver
`_generate_function_schemas`, the registry builder `_generate_function_map`,
and `MinCore.send_message` with its function-calling dispatch loop.

Python runtime values that flow through the core (duck-typed response items,
JSON payloads, function results) are modelled by `PyVal`; the provider client
is modelled as an oracle assigning a response to each provider submission, and
the submissions themselves are collected in a trace so that ordering and
counting claims can be stated.
-/

namespace Mincore

/-- JSON-compatible Python runtime values (None, bool, int, str, list, dict).
Floats are not needed by any modelled code path. -/
inductive PyVal where
  | null
  | bool (b : Bool)
  | num (n : Int)
  | str (s : String)
  | arr (elts : List PyVal)
  | obj (kvs : List (String × PyVal))
deriving Repr, Inhabited

/-- Python truthiness (`bool(v)`) for the modelled values. -/
def pyTruthy : PyVal → Bool
  | .null => false
  | .bool b => b
  | .num n => n ≠ 0
  | .str s => s ≠ ""
  | .arr elts => !elts.isEmpty
  | .obj kvs => !kvs.isEmpty

/-- One character of Python `repr` string escaping (backslash and quote). -/
def reprEscChar (c : Char) : List Char :=
  if c = '\'' then ['\\', '\'']
  else if c = '\\' then ['\\', '\\']
  else [c]

def reprEscList : List Char → List Char
  | [] => []
  | c :: cs => reprEscChar c ++ reprEscList cs

mutual

/-- Python `repr` of a modelled value (used by `str()` on non-strings:
for None, bool, int, list and dict, `str(v) == repr(v)`). -/
def pyRepr : PyVal → List Char
  | .null => "None".data
  | .bool true => "True".data
  | .bool false => "False".data
  | .num n => (toString n).data
  | .str s => '\'' :: reprEscList s.data ++ ['\'']
  | .arr elts => '[' :: pyReprList elts ++ [']']
  | .obj kvs => '\x7b' :: pyReprObj kvs ++ ['\x7d']

def pyReprList : List PyVal → List Char
  | [] => []
  | [v] => pyRepr v
  | v :: rest => pyRepr v ++ ',' :: ' ' :: pyReprList rest

def pyReprObj : List (String × PyVal) → List Char
  | [] => []
  | [(k, v)] => pyRepr (.str k) ++ ':' :: ' ' :: pyRepr v
  | (k, v) :: rest => pyRepr (.str k) ++ ':' :: ' ' :: pyRepr v ++ ',' :: ' ' :: pyReprObj rest

end

/-- Python `str(v)`: identity on strings, `repr` otherwise. -/
def pyStr : PyVal → String
  | .str s => s
  | v => String.mk (pyRepr v)

/-! ### `json.dumps` (restricted to the modelled values, default separators) -/

/-- One character of JSON string escaping as emitted by `json.dumps`. -/
def jsonEscChar (c : Char) : List Char :=
  if c = '"' then ['\\', '"']
  else if c = '\\' then ['\\', '\\']
  else if c = '\n' then ['\\', 'n']
  else if c = '\t' then ['\\', 't']
  else if c = '\r' then ['\\', 'r']
  else [c]

def jsonEscList : List Char → List Char
  | [] => []
  | c :: cs => jsonEscChar c ++ jsonEscList cs

/-- A JSON string literal: `"..."` with escapes. -/
def jstrChars (s : String) : List Char :=
  '"' :: jsonEscList s.data ++ ['"']

mutual

/-- `json.dumps` of a value, as a character list (default separators
`", "` and `": "`, as in the call to json.dumps in the source). -/
def dumpsChars : PyVal → List Char
  | .null => "null".data
  | .bool true => "true".data
  | .bool false => "false".data
  | .num n => (toString n).data
  | .str s => jstrChars s
  | .arr elts => '[' :: dumpsList elts ++ [']']
  | .obj kvs => '\x7b' :: dumpsObj kvs ++ ['\x7d']

def dumpsList : List PyVal → List Char
  | [] => []
  | [v] => dumpsChars v
  | v :: rest => dumpsChars v ++ ',' :: ' ' :: dumpsList rest

def dumpsObj : List (String × PyVal) → List Char
  | [] => []
  | [(k, v)] => jstrChars k ++ ':' :: ' ' :: dumpsChars v
  | (k, v) :: rest => jstrChars k ++ ':' :: ' ' :: dumpsChars v ++ ',' :: ' ' :: dumpsObj rest

end

/-- `json.dumps` of a value. -/
def dumps (v : PyVal) : String := String.mk (dumpsChars v)

/-! ### `json.loads` (a standard recursive-descent JSON reader) -/

def isJsonWs (c : Char) : Bool :=
  c = ' ' || c = '\n' || c = '\t' || c = '\r'

def skipWs : List Char → List Char
  | [] => []
  | c :: rest => if isJsonWs c then skipWs rest else c :: rest

/-- Decode one escape character of a JSON string literal. -/
def jsonUnescChar (c : Char) : Option Char :=
  if c = '"' then some '"'
  else if c = '\\' then some '\\'
  else if c = '/' then some '/'
  else if c = 'n' then some '\n'
  else if c = 't' then some '\t'
  else if c = 'r' then some '\r'
  else if c = 'b' then some (Char.ofNat 8)
  else if c = 'f' then some (Char.ofNat 12)
  else none

/-- Read the body of a JSON string literal after the opening quote,
returning the decoded characters and the input after the closing quote. -/
def readJString : List Char → Option (List Char × List Char)
  | [] => none
  | '"' :: rest => some ([], rest)
  | '\\' :: [] => none
  | '\\' :: e :: rest2 =>
    match jsonUnescChar e with
    | none => none
    | some u =>
      match readJString rest2 with
      | none => none
      | some (l, r) => some (u :: l, r)
  | c :: rest =>
    match readJString rest with
    | none => none
    | some (l, r) => some (c :: l, r)

def digitVal (c : Char) : Nat := c.toNat - '0'.toNat

def readNatAux : List Char → Nat → Nat × List Char
  | [], acc => (acc, [])
  | c :: rest, acc =>
    if c.isDigit then readNatAux rest (acc * 10 + digitVal c) else (acc, c :: rest)

def readNat : List Char → Option (Nat × List Char)
  | [] => none
  | c :: rest =>
    if c.isDigit then some (readNatAux rest (digitVal c)) else none

mutual

def parseValue : Nat → List Char → Option (PyVal × List Char)
  | 0, _ => none
  | fuel + 1, cs =>
    match skipWs cs with
    | [] => none
    | '"' :: rest =>
      match readJString rest with
      | some (l, r) => some (.str (String.mk l), r)
      | none => none
    | '\x7b' :: rest => parseObjBody fuel rest
    | '[' :: rest => parseArrBody fuel rest
    | 't' :: 'r' :: 'u' :: 'e' :: r => some (.bool true, r)
    | 'f' :: 'a' :: 'l' :: 's' :: 'e' :: r => some (.bool false, r)
    | 'n' :: 'u' :: 'l' :: 'l' :: r => some (.null, r)
    | '-' :: rest =>
      match readNat rest with
      | some (n, r) => some (.num (-(n : Int)), r)
      | none => none
    | c :: rest =>
      if c.isDigit then
        match readNat (c :: rest) with
        | some (n, r) => some (.num (n : Int), r)
        | none => none
      else none

def parseMembers : Nat → List Char → Option (List (String × PyVal) × List Char)
  | 0, _ => none
  | fuel + 1, cs =>
    match skipWs cs with
    | '"' :: rest =>
      match readJString rest with
      | none => none
      | some (kl, r1) =>
        match skipWs r1 with
        | ':' :: r2 =>
          match parseValue fuel r2 with
          | none => none
          | some (v, r3) =>
            match skipWs r3 with
            | ',' :: r4 =>
              match parseMembers fuel r4 with
              | none => none
              | some (kvs, r5) => some ((String.mk kl, v) :: kvs, r5)
            | '\x7d' :: r4 => some ([(String.mk kl, v)], r4)
            | _ => none
        | _ => none
    | _ => none

def parseObjBody : Nat → List Char → Option (PyVal × List Char)
  | 0, _ => none
  | fuel + 1, cs =>
    match skipWs cs with
    | '\x7d' :: r => some (.obj [], r)
    | _ =>
      match parseMembers fuel cs with
      | some (kvs, r) => some (.obj kvs, r)
      | none => none

def parseElems : Nat → List Char → Option (List PyVal × List Char)
  | 0, _ => none
  | fuel + 1, cs =>
    match parseValue fuel cs with
    | none => none
    | some (v, r1) =>
      match skipWs r1 with
      | ',' :: r2 =>
        match parseElems fuel r2 with
        | none => none
        | some (vs, r3) => some (v :: vs, r3)
      | ']' :: r2 => some ([v], r2)
      | _ => none

def parseArrBody : Nat → List Char → Option (PyVal × List Char)
  | 0, _ => none
  | fuel + 1, cs =>
    match skipWs cs with
    | ']' :: r => some (.arr [], r)
    | _ =>
      match parseElems fuel cs with
      | some (vs, r) => some (.arr vs, r)
      | none => none

end

/-- `json.loads`: parse a complete JSON document; `none` models the
`json.JSONDecodeError` raised on malformed input. -/
def loads (s : String) : Option PyVal :=
  match parseValue (3 * s.data.length + 3) s.data with
  | some (v, rest) => if (skipWs rest).isEmpty then some v else none
  | none => none

/-! ### Provider responses and `_extract_function_calls` -/

/-- A duck-typed item of the output list of a provider response. Each field is
the Python attribute of the same name: `none` models an absent attribute
(`getattr` then returns the supplied default), `some v` an attribute holding
`v` (where `PyVal.null` is the Python value None). -/
structure Item where
  name : Option PyVal := none
  arguments : Option PyVal := none
  call_id : Option PyVal := none
  id : Option PyVal := none
deriving Repr, Inhabited

/-- A provider response: an `id` (conversation handle), the final
`output_text`, and the `output` attribute, where `none` models an `output`
that is absent or not a list (the extractor returns no calls then). -/
structure Response where
  id : String := ""
  output_text : String := ""
  output : Option (List Item) := none
deriving Repr, Inhabited

/-- A pending function call extracted from a response: the dict
with keys id, name and args built by `_extract_function_calls`. -/
structure Call where
  id : String
  name : String
  args : PyVal
deriving Repr, Inhabited

/-- `arguments is None` (after `getattr(item, "arguments", None)`). -/
def argIsNone : PyVal → Bool
  | .null => true
  | _ => false

/-- Extraction of a single output item; `none` models the continue statement of the loop.
Mirrors the body of the `for item in output` loop of
`_extract_function_calls`:
`name`/`arguments` are read with `getattr(..., None)`, the item is skipped
when `not name or arguments is None`, the call id is
`getattr(item, "call_id", None) or getattr(item, "id", "")` (then
`str(call_id) if call_id is not None else ""`), and string arguments are
`json.loads`-parsed with failures degrading to an empty dict, dict arguments
kept as-is, anything else degrading to an empty dict. -/
def extractOne (item : Item) : Option Call :=
  let name := item.name.getD .null
  let arguments := item.arguments.getD .null
  if !pyTruthy name || argIsNone arguments then none
  else
    let call_id :=
      if pyTruthy (item.call_id.getD .null) then item.call_id.getD .null
      else item.id.getD (.str "")
    let idStr :=
      match call_id with
      | .null => ""
      | v => pyStr v
    let args :=
      match arguments with
      | .str s =>
        match loads s with
        | some v => v
        | none => .obj []
      | .obj kvs => .obj kvs
      | _ => .obj []
    some { id := idStr, name := pyStr name, args := args }

/-- `_extract_function_calls(response)`: scan `response.output` in order,
appending one call per qualifying item. -/
def extract_function_calls (response : Response) : List Call :=
  match response.output with
  | none => []
  | some output => output.filterMap extractOne

/-! ### Tool definitions, `_generate_function_schemas`, `_generate_function_map` -/

/-- The behaviour of a Python callable when invoked with keyword arguments:
either a returned value or the message of a raised exception, as produced by str(e). -/
def FuncImpl : Type := List (String × PyVal) → Except String PyVal

/-- A tool definition: a native function with its `__name__`, the result of
the external `function_schema.get_function_schema` introspection on it
(a schema dict, or the message of the exception introspection raises when the
signature cannot be introspected), and its call behaviour. -/
structure Func where
  name : String
  introspect : Except String (List (String × PyVal))
  impl : FuncImpl

/-- Python dict assignment `d[k] = v`: replace the value at an existing key
in place, else append the new binding. -/
def dictSet {α : Type} : List (String × α) → String → α → List (String × α)
  | [], k, v => [(k, v)]
  | (k', v') :: rest, k, v =>
    if k' = k then (k', v) :: rest else (k', v') :: dictSet rest k v

/-- Python dict lookup `d[k]` / membership `k in d`. -/
def dictLookup {α : Type} : List (String × α) → String → Option α
  | [], _ => none
  | (k', v) :: rest, k => if k' = k then some v else dictLookup rest k

/-- `_generate_function_schemas(function_list)`: for each function, obtain
`get_function_schema(function)`, set `schema["type"] = "function"` and append.
There is no error handling in this loop: a failing introspection propagates
and aborts the whole list (`Except.error`). The `lru_cache` decoration is
transparent for a pure function and is not modelled. -/
def generate_function_schemas : List Func → Except String (List PyVal)
  | [] => .ok []
  | f :: rest => do
    let kvs ← f.introspect
    let schema := PyVal.obj (dictSet kvs "type" (.str "function"))
    let others ← generate_function_schemas rest
    .ok (schema :: others)

/-- `_generate_function_map(function_list)`: `map[f.__name__] = f` in order
(duplicate names: last wins). -/
def generate_function_map (fl : List Func) : List (String × FuncImpl) :=
  fl.foldl (fun m f => dictSet m f.name f.impl) []

/-! ### The per-call execution step of the dispatch loop -/

/-- One formatted function-call result
with keys type, call_id and output (the
constant `type` field is implied by the constructor). -/
structure CallResult where
  call_id : String
  output : String
deriving Repr, DecidableEq, Inhabited

/-- `json.dumps(result, default=str) if isinstance(result, (dict, list))
else str(result)`. -/
def strOfResult : PyVal → String
  | .obj kvs => dumps (.obj kvs)
  | .arr elts => dumps (.arr elts)
  | v => pyStr v

/-- The `try`/`except` body executing one pending call inside the dispatch
loop of `send_message`:
a name missing from function_map raises a ValueError whose message is
"Unknown function: " followed by the name
(and when no functions were supplied, `function_map` is Python `None`, so the
membership test itself raises
a TypeError whose message says that an argument of type NoneType is not
iterable -- the model omits the quotes that the real message puts around the
type name); otherwise
`function_map[name](**args)` is evaluated (unpacking a non-mapping raises).
Any raised exception is caught and replaced by a dict holding, under the key
"error", the message str(e); the
result is then serialized by `strOfResult`. -/
def execCall (function_map : Option (List (String × FuncImpl))) (call : Call) :
    CallResult :=
  let attempt : Except String PyVal :=
    match function_map with
    | none => Except.error "argument of type NoneType is not iterable"
    | some fm =>
      match dictLookup fm call.name with
      | none => Except.error ("Unknown function: " ++ call.name)
      | some f =>
        match call.args with
        | .obj kvs => f kvs
        | _ => Except.error "argument after ** must be a mapping"
  let result : PyVal :=
    match attempt with
    | .ok v => v
    | .error e => .obj [("error", .str e)]
  { call_id := call.id, output := strOfResult result }

/-! ### The conversation session (`MinCore`) and its provider submissions -/

/-- The input payload of one provider submission
(`client.responses.create(...)`): the initial system prompt, a user message,
or the formatted function-call outputs of a round. -/
inductive RequestInput where
  | system (content : String)
  | user (content : String)
  | functionCallOutputs (results : List CallResult)
deriving Repr, DecidableEq

/-- One provider submission, recording the arguments of a
`client.responses.create` call (an absent `tools` parameter is `none`). -/
structure Request where
  model : String
  previous_response_id : Option String
  input : RequestInput
  tools : Option (List PyVal)

/-- The session state of a `MinCore` instance together with the provider: the
`client` is an oracle assigning a `Response` to the k-th provider submission
made during one `send_message` call (submissions are strictly sequential). -/
structure MinCore where
  client : Nat → Response
  model : String := "gpt-5-nano"
  system_prompt : String := "\nYou are a helpful assistant.\n"

/-- `MinCore._create_conversation`: submit only the system prompt (this is
always the 0-th submission of a `send_message` call) and return the new
id of the new response, together with the submission made. -/
def create_conversation (mc : MinCore) : String × Request :=
  let req : Request :=
    { model := mc.model, previous_response_id := none,
      input := .system mc.system_prompt, tools := none }
  ((mc.client 0).id, req)

/-- The function-calling loop of `send_message`
(`for _ in range(max_function_rounds)`), instrumented with the index `k` of
the next provider submission; returns the final response together with the
list of provider submissions the loop made. Each iteration extracts the
pending calls, stops if there are none, otherwise executes every call,
submits the results of the round against the id of the current response (no
`tools` parameter), and continues with the next response of the provider. -/
def dispatchLoop (mc : MinCore) (function_map : Option (List (String × FuncImpl)))
    (k : Nat) (rounds : Nat) (response : Response) : Response × List Request :=
  match rounds with
  | 0 => (response, [])
  | rounds + 1 =>
    let function_calls := extract_function_calls response
    if function_calls.isEmpty then (response, [])
    else
      let function_call_results := function_calls.map (execCall function_map)
      let req : Request :=
        { model := mc.model, previous_response_id := some response.id,
          input := .functionCallOutputs function_call_results, tools := none }
      let response2 := mc.client k
      let next := dispatchLoop mc function_map (k + 1) rounds response2
      (next.1, req :: next.2)

/-- `MinCore.send_message(user_message, previous_response_id, functions,
max_function_rounds)`: bootstrap a conversation when no previous response id
is given, derive schemas and registry when functions are supplied (an
introspection failure propagates as `Except.error`), submit the user message
with the schemas as tools, run the dispatch loop, and return the final
id and output text of the final response. The second component of the result is the
ordered trace of every provider submission made. -/
def send_message (mc : MinCore) (user_message : String)
    (previous_response_id : Option String := none)
    (functions : List Func := [])
    (max_function_rounds : Nat := 5) :
    Except String ((String × String) × List Request) := do
  let (prid, bootReqs, k) :=
    match previous_response_id with
    | some pid => (pid, ([] : List Request), 0)
    | none =>
      let boot := create_conversation mc
      (boot.1, [boot.2], 1)
  let (function_schemas, function_map) ←
    if functions.isEmpty then
      Except.ok ((none, none) :
        Option (List PyVal) × Option (List (String × FuncImpl)))
    else do
      let schemas ← generate_function_schemas functions
      Except.ok (some schemas, some (generate_function_map functions))
  let req1 : Request :=
    { model := mc.model, previous_response_id := some prid,
      input := .user user_message, tools := function_schemas }
  let response := mc.client k
  let looped := dispatchLoop mc function_map (k + 1) max_function_rounds response
  Except.ok ((looped.1.id, looped.1.output_text), bootReqs ++ req1 :: looped.2)

/-! ### Definitions taken from the words of the specification

These restate, following the description of the Call Extractor in the spec,
which items qualify as calls and how their fields are obtained; they are
compared against `extract_function_calls` (the definition taken from the
source) in the claims below. -/

/-- Spec 4.3: "An item qualifies as a call if it exposes a non-empty name and
a non-null arguments value." -/
def itemIsCall (it : Item) : Bool :=
  pyTruthy (it.name.getD .null) && !argIsNone (it.arguments.getD .null)

/-- The call identifier actually produced for a qualifying item: the
call-identifier field when it is truthy, else the generic identifier field
(empty string when that is absent, and empty string when it is present but
holds None). -/
def callIdSpec (it : Item) : String :=
  if pyTruthy (it.call_id.getD .null) then pyStr (it.call_id.getD .null)
  else
    match it.id.getD (.str "") with
    | .null => ""
    | v => pyStr v

/-- Spec 4.3: "Arguments are accepted in two forms: a JSON-encoded string
(parsed; a parse failure yields an empty argument mapping rather than
propagating the error) or an already-structured mapping (used as-is)";
any other form degrades to an empty argument mapping. -/
def specParseArgs : PyVal → PyVal
  | .str s => (loads s).getD (.obj [])
  | .obj kvs => .obj kvs
  | _ => .obj []

/-- The Pending Call the spec associates to a qualifying item. -/
def specCallOf (it : Item) : Call :=
  { id := callIdSpec it, name := pyStr (it.name.getD .null),
    args := specParseArgs (it.arguments.getD .null) }

/-- Spec 4.3 as a whole: one Pending Call per qualifying output item, in
output-list order, every other item skipped. -/
def extractSpecCalls (r : Response) : List Call :=
  match r.output with
  | none => []
  | some output => (output.filter itemIsCall).map specCallOf

/-- The error object packaged for an unknown function name. -/
def errUnknown (name : String) : PyVal :=
  .obj [("error", .str ("Unknown function: " ++ name))]

/-- The error object packaged when no registry was built (`function_map` is
Python `None` and the membership test raises a `TypeError`). -/
def errNoneRegistry : PyVal :=
  .obj [("error", .str "argument of type NoneType is not iterable")]

/-- Argument values that are neither a string, a mapping, nor null. -/
def argOther : PyVal → Bool
  | .null => false
  | .str _ => false
  | .obj _ => false
  | _ => true

/-! ### Concrete fixtures used by counterexamples and witnesses -/

/-- A pending call naming a function absent from any registry. -/
def callUnknownW : Call := { id := "id1", name := "nope", args := .obj [] }

/-- A tool implementation that always raises `RuntimeError("boom")`. -/
def raisingImpl : FuncImpl := fun _ => .error "boom"

/-- A one-entry registry holding the raising tool. -/
def registryW : List (String × FuncImpl) := [("f1", raisingImpl)]

/-- A pending call for the raising tool. -/
def callRaisingW : Call := { id := "id3", name := "f1", args := .obj [] }

/-- A tool definition whose signature introspection raises. -/
def badFunc : Func :=
  { name := "bad", introspect := .error "unsupported callable",
    impl := fun _ => .ok .null }

/-- A tool definition whose signature introspection succeeds. -/
def goodFunc : Func :=
  { name := "good", introspect := .ok [("name", .str "good")],
    impl := fun _ => .ok .null }

/-- An output item whose call-identifier attribute is present but holds the
empty string, while its generic identifier attribute holds "x". -/
def itemCex : Item :=
  { name := some (.str "f"), arguments := some (.obj []),
    call_id := some (.str ""), id := some (.str "x") }

/-- A response whose only output item is `itemCex`. -/
def respCex : Response :=
  { id := "r", output_text := "", output := some [itemCex] }

/-- A response with an empty output list (no qualifying call items). -/
def respNoCallsW : Response :=
  { id := "A", output_text := "T", output := some [] }

/-- A session whose provider always answers `respNoCallsW`. -/
def mcNoCallsW : MinCore := { client := fun _ => respNoCallsW }

/-- An output item with a truthy name and a number-valued arguments field. -/
def itemOtherArgsW : Item :=
  { name := some (.str "f"), arguments := some (.num 3) }

/-- The bootstrap submission `mcNoCallsW` makes on a fresh conversation. -/
def bootReqW : Request :=
  { model := "gpt-5-nano", previous_response_id := none,
    input := .system "\nYou are a helpful assistant.\n", tools := none }

/-- The user-message submission following the bootstrap of `mcNoCallsW`. -/
def userReqW : Request :=
  { model := "gpt-5-nano", previous_response_id := some "A",
    input := .user "hello", tools := none }

/-- The value `send_message mcNoCallsW "hello" none [] 0` returns. -/
def outBootW : (String × String) × List Request :=
  (("A", "T"), [bootReqW, userReqW])

/-!
## Helper lemmas

General facts about the embedded definitions, shared by the claim theorems
below: the JSON round trip on the error objects the dispatch loop serializes,
the equivalence of the call extractor with its specification-side
description, and the shape of the dispatch loop recursion.
-/

theorem exceptBind_ok {α β ε : Type} (a : α) (f : α → Except ε β) :
    (Except.ok a >>= f) = f a := rfl

theorem exceptBind_error {α β ε : Type} (e : ε) (f : α → Except ε β) :
    ((Except.error e : Except ε α) >>= f) = Except.error e := rfl

theorem readJString_jsonEsc (l rest : List Char) :
    readJString (jsonEscList l ++ '"' :: rest) = some (l, rest) := by
  induction l with
  | nil => simp [jsonEscList, readJString]
  | cons c cs ih =>
    by_cases h1 : c = '"'
    · subst h1; simp [jsonEscList, jsonEscChar, readJString, jsonUnescChar, ih]
    by_cases h2 : c = '\\'
    · subst h2; simp [jsonEscList, jsonEscChar, readJString, jsonUnescChar, ih]
    by_cases h3 : c = '\n'
    · subst h3; simp [jsonEscList, jsonEscChar, readJString, jsonUnescChar, ih]
    by_cases h4 : c = '\t'
    · subst h4; simp [jsonEscList, jsonEscChar, readJString, jsonUnescChar, ih]
    by_cases h5 : c = '\r'
    · subst h5; simp [jsonEscList, jsonEscChar, readJString, jsonUnescChar, ih]
    · simp [jsonEscList, jsonEscChar, h1, h2, h3, h4, h5, readJString, ih]

theorem jstrChars_append (s : String) (rest : List Char) :
    jstrChars s ++ rest = '"' :: (jsonEscList s.data ++ '"' :: rest) := by
  simp [jstrChars]

theorem parseValue_str_of_skip (f : Nat) (cs : List Char) (s : String) (rest : List Char)
    (h : skipWs cs = '"' :: (jsonEscList s.data ++ '"' :: rest)) :
    parseValue (f + 1) cs = some (.str s, rest) := by
  simp [parseValue, h, readJString_jsonEsc]

theorem parseMembers_single (f : Nat) (key val : String) (rest : List Char) :
    parseMembers (f + 1 + 1)
      (jstrChars key ++ ':' :: ' ' :: (jstrChars val ++ '\x7d' :: rest)) =
      some ([(key, .str val)], rest) := by
  have hskip : skipWs (jstrChars key ++ ':' :: ' ' :: (jstrChars val ++ '\x7d' :: rest)) =
      '"' :: (jsonEscList key.data ++
        '"' :: (':' :: ' ' :: (jstrChars val ++ '\x7d' :: rest))) := by
    rw [jstrChars_append]
    simp [skipWs, isJsonWs]
  have hval : parseValue (f + 1) (' ' :: (jstrChars val ++ '\x7d' :: rest)) =
      some (.str val, '\x7d' :: rest) := by
    apply parseValue_str_of_skip
    rw [jstrChars_append]
    simp [skipWs, isJsonWs]
  simp [parseMembers, hskip, readJString_jsonEsc, skipWs, isJsonWs, hval]

theorem parseObjBody_single (f : Nat) (key val : String) (rest : List Char) :
    parseObjBody (f + 1 + 1 + 1)
      (jstrChars key ++ ':' :: ' ' :: (jstrChars val ++ '\x7d' :: rest)) =
      some (.obj [(key, .str val)], rest) := by
  have hskip : skipWs (jstrChars key ++ ':' :: ' ' :: (jstrChars val ++ '\x7d' :: rest)) =
      '"' :: (jsonEscList key.data ++
        '"' :: (':' :: ' ' :: (jstrChars val ++ '\x7d' :: rest))) := by
    rw [jstrChars_append]
    simp [skipWs, isJsonWs]
  simp [parseObjBody, hskip, parseMembers_single]

theorem parseValue_objSingle (f : Nat) (key val : String) (rest : List Char) :
    parseValue (f + 1 + 1 + 1 + 1)
      ('\x7b' :: (jstrChars key ++ ':' :: ' ' :: (jstrChars val ++ '\x7d' :: rest))) =
      some (.obj [(key, .str val)], rest) := by
  have hskip : skipWs
      ('\x7b' :: (jstrChars key ++ ':' :: ' ' :: (jstrChars val ++ '\x7d' :: rest))) =
      '\x7b' :: (jstrChars key ++ ':' :: ' ' :: (jstrChars val ++ '\x7d' :: rest)) := by
    simp [skipWs, isJsonWs]
  simp [parseValue, hskip, parseObjBody_single]

/-- The JSON round trip for single-key error objects with a string value:
`json.loads` recovers exactly what `json.dumps` wrote. -/
theorem loads_dumps_single (key val : String) :
    loads (dumps (.obj [(key, .str val)])) = some (.obj [(key, .str val)]) := by
  have hchars : dumpsChars (.obj [(key, .str val)]) =
      '\x7b' :: (jstrChars key ++ ':' :: ' ' :: (jstrChars val ++ '\x7d' :: [])) := by
    simp [dumpsChars, dumpsObj]
  have hL : 1 ≤ (dumpsChars (.obj [(key, .str val)])).length := by
    rw [hchars]; simp
  obtain ⟨f, hf⟩ :
      ∃ f, 3 * (dumpsChars (.obj [(key, .str val)])).length + 3 = f + 1 + 1 + 1 + 1 :=
    ⟨3 * (dumpsChars (.obj [(key, .str val)])).length - 1, by omega⟩
  unfold loads dumps
  simp only [String.data]
  rw [hf, hchars, parseValue_objSingle]
  simp [skipWs]

/-- `extractOne` filters on `itemIsCall` and builds exactly the call the
spec describes. -/
theorem extractOne_eq (it : Item) :
    extractOne it = if itemIsCall it then some (specCallOf it) else none := by
  unfold extractOne itemIsCall specCallOf
  cases hn : pyTruthy (it.name.getD .null) <;>
    cases ha : argIsNone (it.arguments.getD .null) <;>
      simp [hn, ha]
  refine ⟨?_, ?_⟩
  · unfold callIdSpec
    by_cases hc : pyTruthy (it.call_id.getD .null)
    · rw [if_pos hc]
      generalize hw : it.call_id.getD .null = w at hc
      cases w <;> simp_all [pyTruthy]
    · rw [if_neg hc]
      simp [hc]
  · unfold specParseArgs
    generalize hw : it.arguments.getD .null = w at ha
    cases w <;> simp_all [argIsNone]
    cases loads _ <;> simp

theorem filterMap_extractOne (items : List Item) :
    items.filterMap extractOne = (items.filter itemIsCall).map specCallOf := by
  induction items with
  | nil => rfl
  | cons it its ih =>
    cases hq : itemIsCall it <;>
      simp [List.filterMap_cons, List.filter_cons, extractOne_eq, hq, ih]

/-- The extractor taken from the source coincides, on every response, with
the extractor described by the spec. -/
theorem extract_eq_spec (r : Response) :
    extract_function_calls r = extractSpecCalls r := by
  unfold extract_function_calls extractSpecCalls
  cases r.output with
  | none => rfl
  | some items => exact filterMap_extractOne items

theorem dispatchLoop_length_le (mc : MinCore) (fm : Option (List (String × FuncImpl))) :
    ∀ (n k : Nat) (r : Response), (dispatchLoop mc fm k n r).2.length ≤ n := by
  intro n
  induction n with
  | zero => intro k r; simp [dispatchLoop]
  | succ n ih =>
    intro k r
    by_cases h : (extract_function_calls r).isEmpty <;>
      simp [dispatchLoop, h]
    exact ih (k + 1) (mc.client k)

/-- The response the dispatch loop hands back is the initial one when it made
no submission, and the response to its last submission otherwise. -/
theorem dispatchLoop_final (mc : MinCore) (fm : Option (List (String × FuncImpl))) :
    ∀ (n k : Nat) (r : Response),
      (dispatchLoop mc fm k n r).1 =
        if (dispatchLoop mc fm k n r).2.length = 0 then r
        else mc.client (k + (dispatchLoop mc fm k n r).2.length - 1) := by
  intro n
  induction n with
  | zero => intro k r; simp [dispatchLoop]
  | succ n ih =>
    intro k r
    by_cases h : (extract_function_calls r).isEmpty
    · simp [dispatchLoop, h]
    · have h1 : (dispatchLoop mc fm k (n + 1) r).1 =
          (dispatchLoop mc fm (k + 1) n (mc.client k)).1 := by
        simp [dispatchLoop, h]
      have h2 : (dispatchLoop mc fm k (n + 1) r).2.length =
          (dispatchLoop mc fm (k + 1) n (mc.client k)).2.length + 1 := by
        simp [dispatchLoop, h]
      rw [h1, h2]
      have hih := ih (k + 1) (mc.client k)
      by_cases hl : (dispatchLoop mc fm (k + 1) n (mc.client k)).2.length = 0
      · rw [hl] at hih ⊢
        simp at hih
        simp [hih]
      · rw [if_neg hl] at hih
        rw [if_neg (by omega :
          ¬((dispatchLoop mc fm (k + 1) n (mc.client k)).2.length + 1 = 0))]
        rw [hih]
        congr 1
        omega

theorem dispatchLoop_noCalls (mc : MinCore) (fm : Option (List (String × FuncImpl)))
    (r : Response) (h : extract_function_calls r = []) :
    ∀ (n k : Nat), dispatchLoop mc fm k n r = (r, []) := by
  intro n k
  cases n <;> simp [dispatchLoop, h]

theorem extractOne_other (it : Item)
    (h1 : pyTruthy (it.name.getD .null) = true)
    (h2 : argOther (it.arguments.getD .null) = true) :
    extractOne it =
      some { id := callIdSpec it, name := pyStr (it.name.getD .null),
             args := .obj [] } := by
  rw [extractOne_eq]
  have hq : itemIsCall it = true := by
    unfold itemIsCall
    generalize hw : it.arguments.getD .null = w at h2
    cases w <;> simp_all [argOther, argIsNone]
  rw [if_pos hq]
  unfold specCallOf specParseArgs
  generalize hw : it.arguments.getD .null = w at h2
  cases w <;> simp_all [argOther]

theorem execCall_unknown (fm : List (String × FuncImpl)) (c : Call)
    (h : dictLookup fm c.name = none) :
    execCall (some fm) c = { call_id := c.id, output := dumps (errUnknown c.name) } := by
  simp [execCall, h, errUnknown, strOfResult, dumps]

theorem execCall_raises (fm : List (String × FuncImpl)) (c : Call) (f : FuncImpl)
    (kvs : List (String × PyVal)) (msg : String)
    (h1 : dictLookup fm c.name = some f) (h2 : c.args = .obj kvs)
    (h3 : f kvs = .error msg) :
    execCall (some fm) c =
      { call_id := c.id, output := dumps (.obj [("error", .str msg)]) } := by
  simp [execCall, h1, h2, h3, strOfResult, dumps]

/-!
## Claims
-/

/-- C1: for every initial provider response and every round limit n, the
dispatch loop inside send_message performs at most n additional provider
submissions; when it stops (also when the limit is reached with calls still
pending) the response it hands back is the initial one if no submission was
made and the response to the last submission otherwise, and send_message
returns exactly the id and output_text of that final response (pending calls
of the final round are never executed, as no further submission exists). -/
theorem claim1_dispatch_round_limit (mc : MinCore)
    (fm : Option (List (String × FuncImpl))) (k n : Nat) (r : Response)
    (msg pid : String) :
    (dispatchLoop mc fm k n r).2.length ≤ n ∧
    (dispatchLoop mc fm k n r).1 =
      (if (dispatchLoop mc fm k n r).2.length = 0 then r
       else mc.client (k + (dispatchLoop mc fm k n r).2.length - 1)) ∧
    (send_message mc msg (some pid) [] n).map Prod.fst =
      Except.ok ((dispatchLoop mc none 1 n (mc.client 0)).1.id,
                 (dispatchLoop mc none 1 n (mc.client 0)).1.output_text) :=
  ⟨dispatchLoop_length_le mc fm n k r, dispatchLoop_final mc fm n k r, rfl⟩

/-- C2: a pending call whose name is absent from the registry yields a call
result carrying the call id whose output deserializes to the JSON object
binding "error" to "Unknown function: " followed by the name, and the round
maps over every remaining call rather than aborting. -/
theorem claim2_unknown_function (fm : List (String × FuncImpl)) (c : Call)
    (h : dictLookup fm c.name = none) :
    execCall (some fm) c = { call_id := c.id, output := dumps (errUnknown c.name) } ∧
    loads ((execCall (some fm) c).output) = some (errUnknown c.name) ∧
    (∀ pre post : List Call,
      (pre ++ c :: post).map (execCall (some fm)) =
        pre.map (execCall (some fm)) ++
          execCall (some fm) c :: post.map (execCall (some fm))) := by
  have h1 := execCall_unknown fm c h
  refine ⟨h1, ?_, ?_⟩
  · rw [h1]
    exact loads_dumps_single "error" ("Unknown function: " ++ c.name)
  · intro pre post
    simp

/-- C2 witness: a concrete call against an empty registry. -/
theorem claim2_unknown_function_witness :
    dictLookup ([] : List (String × FuncImpl)) callUnknownW.name = none ∧
    execCall (some []) callUnknownW =
      { call_id := "id1", output := dumps (errUnknown "nope") } ∧
    loads ((execCall (some []) callUnknownW).output) = some (errUnknown "nope") ∧
    ([] ++ callUnknownW :: []).map (execCall (some [])) =
      [].map (execCall (some [])) ++
        execCall (some []) callUnknownW :: ([].map (execCall (some []))) :=
  ⟨rfl, (claim2_unknown_function [] callUnknownW rfl).1,
    (claim2_unknown_function [] callUnknownW rfl).2.1,
    (claim2_unknown_function [] callUnknownW rfl).2.2 [] []⟩

/-- C3: a pending call whose registered function raises is caught: the call
result carries the call id, its output deserializes to an object binding
"error" to the raised message, and the round maps over every remaining call
(the exception is not propagated, the loop is a total function). -/
theorem claim3_tool_error (fm : List (String × FuncImpl)) (c : Call) (f : FuncImpl)
    (kvs : List (String × PyVal)) (msg : String)
    (h1 : dictLookup fm c.name = some f) (h2 : c.args = .obj kvs)
    (h3 : f kvs = .error msg) :
    execCall (some fm) c =
      { call_id := c.id, output := dumps (.obj [("error", .str msg)]) } ∧
    loads ((execCall (some fm) c).output) = some (.obj [("error", .str msg)]) ∧
    (∀ pre post : List Call,
      (pre ++ c :: post).map (execCall (some fm)) =
        pre.map (execCall (some fm)) ++
          execCall (some fm) c :: post.map (execCall (some fm))) := by
  have he := execCall_raises fm c f kvs msg h1 h2 h3
  refine ⟨he, ?_, ?_⟩
  · rw [he]
    exact loads_dumps_single "error" msg
  · intro pre post
    simp

/-- C3 witness: a concrete raising tool in a one-entry registry. -/
theorem claim3_tool_error_witness :
    dictLookup registryW callRaisingW.name = some raisingImpl ∧
    callRaisingW.args = PyVal.obj [] ∧
    raisingImpl [] = Except.error "boom" ∧
    execCall (some registryW) callRaisingW =
      { call_id := "id3", output := dumps (.obj [("error", .str "boom")]) } ∧
    loads ((execCall (some registryW) callRaisingW).output) =
      some (.obj [("error", .str "boom")]) :=
  ⟨rfl, rfl, rfl,
    (claim3_tool_error registryW callRaisingW raisingImpl [] "boom" rfl rfl rfl).1,
    (claim3_tool_error registryW callRaisingW raisingImpl [] "boom" rfl rfl rfl).2.1⟩

/-- C4: evaluation of the schema deriver at the failing input. The loop of
`_generate_function_schemas` contains no error handling: when introspection
of one function raises, the whole derivation raises and no schema list is
returned, contradicting the degrade-to-empty-parameters behaviour the spec
requires; with no failing entry, every definition gets a schema. -/
theorem claim4_schema_abort :
    generate_function_schemas [badFunc, goodFunc] =
      Except.error "unsupported callable" ∧
    generate_function_schemas [goodFunc] =
      Except.ok [PyVal.obj [("name", .str "good"), ("type", .str "function")]] :=
  ⟨rfl, rfl⟩

/-- C5: on every provider response, the call extractor (a total function, so
it never raises) returns, in output-list order, exactly one pending call per
item exposing a truthy name and a non-null arguments value, skipping every
other item, with string arguments JSON-parsed (a parse failure yielding an
empty mapping) and mapping arguments kept as-is: it equals the extractor
written from the words of the spec. -/
theorem claim5_call_extractor (r : Response) :
    extract_function_calls r = extractSpecCalls r :=
  extract_eq_spec r

/-- C6 counterexample: the claim says the identifier of a pending call is the
call-identifier field of the item whenever that field is present, with
fallbacks only on absence; but for an item whose call_id attribute is present
and holds the empty string, the code falls back to the generic id attribute:
the extracted identifier is "x", not the present call_id value "". -/
theorem claim6_call_id_counterexample :
    itemCex.call_id = some (PyVal.str "") ∧
    itemCex.id = some (PyVal.str "x") ∧
    extract_function_calls respCex =
      [{ id := "x", name := "f", args := PyVal.obj [] }] :=
  ⟨rfl, rfl, rfl⟩

/-- C6 amended: the identifier of every extracted call is the call-identifier
field when that is present and truthy, else the generic identifier field
(empty string when the latter is absent or holds null), as computed by
`callIdSpec`. -/
theorem claim6_call_id_amended (r : Response) :
    (extract_function_calls r).map Call.id =
      ((r.output.getD []).filter itemIsCall).map callIdSpec := by
  rw [extract_eq_spec]
  unfold extractSpecCalls
  cases r.output <;> simp [List.map_map, Function.comp, specCallOf]

/-- C7: when the extractor finds no qualifying call in a response, the
dispatch loop performs zero additional provider submissions and hands the
response back unchanged, and send_message returns exactly that original
id and output_text (its trace holds only the user-message submission). -/
theorem claim7_no_pending_calls (mc : MinCore) (r : Response)
    (h : extract_function_calls r = []) :
    (∀ (fm : Option (List (String × FuncImpl))) (k n : Nat),
      dispatchLoop mc fm k n r = (r, [])) ∧
    (∀ (msg pid : String) (n : Nat), mc.client 0 = r →
      send_message mc msg (some pid) [] n =
        Except.ok ((r.id, r.output_text),
          [{ model := mc.model, previous_response_id := some pid,
             input := .user msg, tools := none }])) := by
  constructor
  · intro fm k n
    exact dispatchLoop_noCalls mc fm r h n k
  · intro msg pid n hr
    have hd : dispatchLoop mc none 1 n (mc.client 0) = (r, []) := by
      rw [hr]
      exact dispatchLoop_noCalls mc none r h n 1
    have base : send_message mc msg (some pid) [] n =
        Except.ok
          (((dispatchLoop mc none 1 n (mc.client 0)).1.id,
            (dispatchLoop mc none 1 n (mc.client 0)).1.output_text),
            { model := mc.model, previous_response_id := some pid,
              input := .user msg, tools := none } ::
              (dispatchLoop mc none 1 n (mc.client 0)).2) := rfl
    rw [base, hd]

/-- C7 witness: a provider whose response has an empty output list. -/
theorem claim7_no_pending_calls_witness :
    extract_function_calls respNoCallsW = [] ∧
    dispatchLoop mcNoCallsW none 0 5 respNoCallsW = (respNoCallsW, []) ∧
    send_message mcNoCallsW "hi" (some "p") [] 5 =
      Except.ok (("A", "T"),
        [{ model := mcNoCallsW.model, previous_response_id := some "p",
           input := .user "hi", tools := none }]) :=
  ⟨rfl, (claim7_no_pending_calls mcNoCallsW respNoCallsW rfl).1 none 0 5,
    (claim7_no_pending_calls mcNoCallsW respNoCallsW rfl).2 "hi" "p" 5 rfl⟩

/-- C8: every successful send_message call with an absent
previous_response_id makes the system-prompt-only bootstrap submission first
(no previous id, no tools) and the user-message submission second, addressed
to the handle obtained from the bootstrap response; the order of the two is
fixed. -/
theorem claim8_bootstrap_order (mc : MinCore) (msg : String)
    (functions : List Func) (n : Nat)
    (out : (String × String) × List Request)
    (h : send_message mc msg none functions n = Except.ok out) :
    out.2.head? = some { model := mc.model, previous_response_id := none,
                         input := .system mc.system_prompt, tools := none } ∧
    (out.2[1]?).map Request.input = some (.user msg) ∧
    (out.2[1]?).map Request.previous_response_id =
      some (some ((mc.client 0).id)) ∧
    (out.2[1]?).map Request.model = some mc.model := by
  unfold send_message create_conversation at h
  by_cases hf : functions.isEmpty
  · simp [hf, exceptBind_ok] at h
    subst h
    refine ⟨rfl, ?_, ?_, ?_⟩ <;> simp
  · cases hg : generate_function_schemas functions with
    | error e => simp [hf, hg, exceptBind_error] at h
    | ok schemas =>
      simp [hf, hg, exceptBind_error, exceptBind_ok] at h
      subst h
      refine ⟨rfl, ?_, ?_, ?_⟩ <;> simp

/-- C8 witness: a concrete fresh-conversation send against a stub provider,
with the full two-submission trace computed. -/
theorem claim8_bootstrap_order_witness :
    send_message mcNoCallsW "hello" none [] 0 = Except.ok outBootW ∧
    outBootW.2.head? =
      some { model := mcNoCallsW.model, previous_response_id := none,
             input := .system mcNoCallsW.system_prompt, tools := none } ∧
    (outBootW.2[1]?).map Request.input = some (.user "hello") ∧
    (outBootW.2[1]?).map Request.previous_response_id =
      some (some ((mcNoCallsW.client 0).id)) ∧
    (outBootW.2[1]?).map Request.model = some mcNoCallsW.model :=
  ⟨rfl, claim8_bootstrap_order mcNoCallsW "hello" [] 0 outBootW rfl⟩

/-- C9: a send_message call with an empty functions list threads a missing
registry (Python None) into the dispatch loop, and a pending call executed
against the missing registry does not crash the loop: the TypeError raised
by the membership test is caught by the per-call handler and packaged as a
call result whose output deserializes to an object with key "error", and the
round still maps over every call. -/
theorem claim9_missing_registry (mc : MinCore) (msg pid : String) (n : Nat)
    (c : Call) :
    send_message mc msg (some pid) [] n =
      Except.ok
        (((dispatchLoop mc none 1 n (mc.client 0)).1.id,
          (dispatchLoop mc none 1 n (mc.client 0)).1.output_text),
          { model := mc.model, previous_response_id := some pid,
            input := .user msg, tools := none } ::
            (dispatchLoop mc none 1 n (mc.client 0)).2) ∧
    execCall none c = { call_id := c.id, output := dumps errNoneRegistry } ∧
    loads ((execCall none c).output) = some errNoneRegistry ∧
    (∀ pre post : List Call,
      (pre ++ c :: post).map (execCall none) =
        pre.map (execCall none) ++
          execCall none c :: post.map (execCall none)) := by
  refine ⟨rfl, rfl, ?_, ?_⟩
  · exact loads_dumps_single "error" "argument of type NoneType is not iterable"
  · intro pre post
    simp

/-- C10: an output item with a truthy name whose arguments value is neither
a string nor a mapping (nor null) still yields a pending call, in place,
with an empty argument mapping. -/
theorem claim10_nonmapping_args (rid otext : String) (pre post : List Item)
    (it : Item)
    (h1 : pyTruthy (it.name.getD .null) = true)
    (h2 : argOther (it.arguments.getD .null) = true) :
    extract_function_calls
        { id := rid, output_text := otext, output := some (pre ++ it :: post) } =
      extract_function_calls { id := rid, output_text := otext, output := some pre } ++
        { id := callIdSpec it, name := pyStr (it.name.getD .null),
          args := PyVal.obj [] } ::
          extract_function_calls
            { id := rid, output_text := otext, output := some post } := by
  unfold extract_function_calls
  simp [List.filterMap_append, List.filterMap_cons, extractOne_other it h1 h2]

/-- C10 witness: a concrete item with number-valued arguments. -/
theorem claim10_nonmapping_args_witness :
    pyTruthy (itemOtherArgsW.name.getD .null) = true ∧
    argOther (itemOtherArgsW.arguments.getD .null) = true ∧
    extract_function_calls
        { id := "r", output_text := "t",
          output := some ([] ++ itemOtherArgsW :: []) } =
      extract_function_calls { id := "r", output_text := "t", output := some [] } ++
        { id := callIdSpec itemOtherArgsW,
          name := pyStr (itemOtherArgsW.name.getD .null),
          args := PyVal.obj [] } ::
          extract_function_calls { id := "r", output_text := "t", output := some [] } :=
  ⟨by decide, rfl,
    claim10_nonmapping_args "r" "t" [] [] itemOtherArgsW (by decide) rfl⟩

end Mincore
